import Mathlib

/-
Verification of `src/network_c.h` of the `individual` repository.

The header declares two C functions:

  void register_functions_C();
  SEXP get_out_neighborhood_C(SEXP g, int v);

inside the include guard `NETWORK_H_`, after `#include <Rinternals.h>`.
We embed the header syntactically (types, declarations, items, guard),
the C preprocessor's treatment of the guard, the C by-value calling
convention for the `int v` parameter, and — since the implementations are
not part of the supplied source — the contracts the spec states for the
two functions (out-neighborhood semantics; register-first, one-time
registration protocol).
-/

namespace NetworkC

/-- The C types that occur in the header: `void`, `int`, and `SEXP`
(the R API's opaque pointer type, from `Rinternals.h`). -/
inductive CType
  | void
  | int
  | sexp
deriving DecidableEq

/-- `SEXP` is an opaque handle: the header discloses nothing of its
structure. `void` and `int` are not opaque. -/
def CType.isOpaque : CType → Bool
  | CType.sexp => true
  | _ => false

/-- A C function declaration: return type, name, parameter types. -/
structure FunDecl where
  ret : CType
  name : String
  params : List CType
deriving DecidableEq

/-- The items a C header may contain, at the granularity the claims need:
comments, blank lines, `#include` directives, function declarations
(prototypes), function definitions, struct definitions, object
declarations and typedefs.  Only the first four occur in this header. -/
inductive HeaderItem
  | comment (text : String)
  | blank
  | includeDirective (file : String)
  | declaration (d : FunDecl)
  | functionDef (d : FunDecl)
  | structDef (s : String)
  | objectDecl (t : CType) (s : String)
  | typedefDecl (s : String)
deriving DecidableEq

/-- A header file with an include guard: the items before `#ifndef`
(`preamble`), the guard macro, and the items between `#define` and
`#endif` (`items`). -/
structure HeaderFile where
  preamble : List HeaderItem
  guardMacro : String
  items : List HeaderItem
deriving DecidableEq

/-- Line 14 of the header: `void register_functions_C();` — empty
parameter list, `void` return. -/
def register_functions_C_decl : FunDecl :=
  { ret := CType.void, name := "register_functions_C", params := [] }

/-- Line 17 of the header: `SEXP get_out_neighborhood_C(SEXP g, int v);` —
parameters `SEXP g` and `int v`, returning `SEXP`. -/
def get_out_neighborhood_C_decl : FunDecl :=
  { ret := CType.sexp, name := "get_out_neighborhood_C"
  , params := [CType.sexp, CType.int] }

/-- The header `src/network_c.h`, transcribed item by item. -/
def network_c_h : HeaderFile :=
  { preamble :=
      [ HeaderItem.comment ("network_c.h Created on: 27 Apr 2021 Author: slwu89")
      , HeaderItem.blank ]
  , guardMacro := "NETWORK_H_"
  , items :=
      [ HeaderItem.blank
      , HeaderItem.includeDirective ("Rinternals.h")
      , HeaderItem.blank
      , HeaderItem.comment ("call before calling anything else in this header")
      , HeaderItem.declaration register_functions_C_decl
      , HeaderItem.blank
      , HeaderItem.comment ("get out neighborhood of a vertex v in a graph g")
      , HeaderItem.declaration get_out_neighborhood_C_decl
      , HeaderItem.blank
      , HeaderItem.comment ("get out neighborhood")
      , HeaderItem.blank ] }

/-- The raw text of `src/network_c.h`, line by line.  The final line
`#endif` is not newline-terminated, so the file holds 21 text lines and
20 newline characters. -/
def network_c_h_lines : List String :=
  [ "/*"
  , " * network_c.h"
  , " *"
  , " *  Created on: 27 Apr 2021"
  , " *      Author: slwu89"
  , " */"
  , ""
  , "#ifndef NETWORK_H_"
  , "#define NETWORK_H_"
  , ""
  , "#include <Rinternals.h>"
  , ""
  , "// call before calling anything else in this header"
  , "void register_functions_C();"
  , ""
  , "// get out neighborhood of a vertex v in a graph g"
  , "SEXP get_out_neighborhood_C(SEXP g, int v);"
  , ""
  , "// get out neighborhood"
  , ""
  , "#endif" ]

/-- The number of newline characters in `src/network_c.h`: every line but
the unterminated last one ends in a newline. -/
def network_c_h_newlineCount : Nat := network_c_h_lines.length - 1

/-- The files of the supplied repository excerpt: the single header. -/
def repositoryFiles : List String := ["src/network_c.h"]

/-- The function declarations a header contributes, in order. -/
def declsOf (h : HeaderFile) : List FunDecl :=
  (h.preamble ++ h.items).filterMap (fun it =>
    match it with
    | HeaderItem.declaration d => some d
    | _ => none)

/-- Recognizer for function-definition items. -/
def isFunctionDefItem : HeaderItem → Bool
  | HeaderItem.functionDef _ => true
  | _ => false

/-- Recognizer for struct-definition items. -/
def isStructDefItem : HeaderItem → Bool
  | HeaderItem.structDef _ => true
  | _ => false

/-- Recognizer for the remaining declaration forms (objects, typedefs). -/
def isOtherDeclItem : HeaderItem → Bool
  | HeaderItem.objectDecl _ _ => true
  | HeaderItem.typedefDecl _ => true
  | _ => false

/-- One preprocessor pass over a guarded header, given the set of macros
already defined: if the guard macro is defined the pass contributes no
declarations; otherwise it defines the guard and contributes the header's
declarations. -/
def cppInclude (defined : List String) (h : HeaderFile) :
    List String × List FunDecl :=
  if h.guardMacro ∈ defined then (defined, [])
  else (h.guardMacro :: defined, declsOf h)

/-- `n` successive inclusions of the header in one translation unit,
threading the defined-macro set and accumulating the contributed
declarations. -/
def cppIncludeN (defined : List String) (h : HeaderFile) : Nat → List String × List FunDecl
  | 0 => (defined, [])
  | n + 1 =>
    let p := cppInclude defined h
    let q := cppIncludeN p.1 h n
    (q.1, p.2 ++ q.2)

/-- Modelled from the spec: the graph type behind the opaque `SEXP g`
handle is not in the supplied source; the spec only says neighborhoods
are taken "via outgoing edges", so a graph is its list of directed edges
over integer vertex labels. -/
structure Graph where
  edges : List (Int × Int)
deriving DecidableEq

/-- Modelled from the spec: the body of `get_out_neighborhood_C` is not
under `src/` (the header only declares it); per the spec it returns the
out-neighborhood of `v` in `g` — "the set of vertices directly reachable
from a given vertex via outgoing edges". -/
def get_out_neighborhood_C (g : Graph) (v : Int) : List Int :=
  (g.edges.filter (fun e => e.1 == v)).map (fun e => e.2)

/-- A call against the header's interface: one of its two declared
functions, with the accessor's arguments. -/
inductive ApiCall
  | register
  | getOutNeighborhood (g : Graph) (v : Int)
deriving DecidableEq

/-- Recognizer for registration calls. -/
def isRegisterCall : ApiCall → Bool
  | ApiCall.register => true
  | _ => false

/-- Recognizer for neighborhood-accessor calls. -/
def isGetCall : ApiCall → Bool
  | ApiCall.getOutNeighborhood _ _ => true
  | _ => false

/-- Modelled from the spec: the implementation enforcing the header's
contract is not in the supplied source.  Per the header comment "call
before calling anything else in this header" and the spec's "one-time
registration entry point", a call sequence is valid from a given
registration state when `register_functions_C` is called only while
unregistered (one-time) and the accessor only while registered. -/
def validFrom : Bool → List ApiCall → Bool
  | _, [] => true
  | registered, ApiCall.register :: rest =>
      !registered && validFrom true rest
  | registered, ApiCall.getOutNeighborhood _ _ :: rest =>
      registered && validFrom registered rest

/-- A valid call sequence against the header, starting unregistered. -/
def validSeq (s : List ApiCall) : Bool := validFrom false s

/-- How many times a sequence calls `register_functions_C`. -/
def registerCount (s : List ApiCall) : Nat := s.countP isRegisterCall

/-- The bounds of a 32-bit two's-complement C `int`, the width of `int`
on every platform R supports (`INT_MIN` of `limits.h`). -/
def intMin : Int := -2147483648

/-- `INT_MAX` of `limits.h` for a 32-bit C `int`. -/
def intMax : Int := 2147483647

/-- An integer is representable as a C `int` when it lies between
`INT_MIN` and `INT_MAX`. -/
def representableAsCInt (x : Int) : Prop := intMin ≤ x ∧ x ≤ intMax

instance (x : Int) : Decidable (representableAsCInt x) :=
  inferInstanceAs (Decidable (intMin ≤ x ∧ x ≤ intMax))

/-- The caller's automatic variables at a call site of
`get_out_neighborhood_C`: its graph handle and its vertex variable. -/
structure CallerState where
  g : Graph
  v : Int
deriving DecidableEq

/-- The callee's own stack frame: `SEXP g` and `int v` hold copies of the
argument values, since C passes both by value. -/
structure CalleeFrame where
  g : Graph
  v : Int
deriving DecidableEq

/-- The C by-value calling convention for the accessor's signature: the
callee's frame is initialized with copies of the caller's argument
values, an arbitrary callee body transforms that frame and produces the
result, and the frame is discarded on return — the callee has no access
to the caller's variables. -/
def callByValue (body : CalleeFrame → CalleeFrame × List Int)
    (s : CallerState) : CallerState × List Int :=
  let frame : CalleeFrame := { g := s.g, v := s.v }
  (s, (body frame).2)

/-- A concrete graph used to instantiate proved contracts. -/
def gEx : Graph := { edges := [(1, 3), (1, 4), (2, 1)] }

/-- A concrete callee body that overwrites its own copy of `v`. -/
def clobberingBody : CalleeFrame → CalleeFrame × List Int :=
  fun f => ({ g := f.g, v := 999 }, get_out_neighborhood_C f.g f.v)

/-- Claim C1: `get_out_neighborhood_C g v` returns exactly the set of
vertices directly reachable from `v` via outgoing edges of `g`: `w` is in
the result iff `g` has the edge `(v, w)`. -/
theorem get_out_neighborhood_C_mem (g : Graph) (v w : Int) :
    w ∈ get_out_neighborhood_C g v ↔ (v, w) ∈ g.edges := by
  unfold get_out_neighborhood_C
  constructor
  · intro hw
    rcases List.mem_map.mp hw with ⟨e, he, hew⟩
    rcases List.mem_filter.mp he with ⟨hmem, hv⟩
    have h1 : e.1 = v := by simpa using hv
    have h2 : (v, w) = e := by
      cases e with
      | mk a b =>
        simp only [Prod.mk.injEq]
        exact ⟨h1.symm, hew.symm⟩
    rw [h2]
    exact hmem
  · intro hvw
    exact List.mem_map.mpr ⟨(v, w), List.mem_filter.mpr ⟨hvw, by simp⟩, rfl⟩

/-- Witness for C1 at a concrete graph: vertex 3 is in the
out-neighborhood of 1 in `gEx`. -/
theorem get_out_neighborhood_C_mem_witness :
    3 ∈ get_out_neighborhood_C gEx 1 :=
  (get_out_neighborhood_C_mem gEx 1 3).mpr (by decide)

/-- Claim C2: in every valid call sequence, wherever the sequence calls
`get_out_neighborhood_C`, a `register_functions_C` call occurs strictly
earlier. -/
theorem register_precedes_get (s pre post : List ApiCall) (g : Graph)
    (v : Int) (hs : validSeq s = true)
    (he : s = pre ++ ApiCall.getOutNeighborhood g v :: post) :
    ApiCall.register ∈ pre := by
  subst he
  cases pre with
  | nil => simp [validSeq, validFrom] at hs
  | cons c rest =>
    cases c with
    | register => exact List.mem_cons_self _ _
    | getOutNeighborhood g' v' =>
      simp [validSeq, validFrom, List.cons_append] at hs

/-- Witness for C2 at a concrete valid sequence: in
`[register, getOutNeighborhood gEx 1]` a registration precedes the
accessor call. -/
theorem register_precedes_get_witness :
    ApiCall.register ∈ [ApiCall.register] :=
  register_precedes_get [ApiCall.register, ApiCall.getOutNeighborhood gEx 1]
    [ApiCall.register] [] gEx 1 (by decide) rfl

/-- Claim C3: `get_out_neighborhood_C` is declared in the header with
exactly two parameters — an opaque graph handle (`SEXP`) and an integer
vertex index (`int`) — and an opaque (`SEXP`) return type. -/
theorem get_out_neighborhood_C_signature :
    HeaderItem.declaration get_out_neighborhood_C_decl ∈ network_c_h.items ∧
    get_out_neighborhood_C_decl.params.length = 2 ∧
    get_out_neighborhood_C_decl.params = [CType.sexp, CType.int] ∧
    CType.isOpaque CType.sexp = true ∧
    get_out_neighborhood_C_decl.ret = CType.sexp ∧
    CType.isOpaque get_out_neighborhood_C_decl.ret = true := by
  exact ⟨by decide, rfl, rfl, rfl, rfl, rfl⟩

/-- Claim C4: `register_functions_C` is declared in the header with an
empty parameter list and `void` return type. -/
theorem register_functions_C_signature :
    HeaderItem.declaration register_functions_C_decl ∈ network_c_h.items ∧
    register_functions_C_decl.params = [] ∧
    register_functions_C_decl.ret = CType.void := by
  exact ⟨by decide, rfl, rfl⟩

/-- Claim C5: the header contributes exactly the two function prototypes,
in order, and contains no function definition, no struct definition, and
no other declaration form. -/
theorem header_has_exactly_two_prototypes :
    declsOf network_c_h
      = [register_functions_C_decl, get_out_neighborhood_C_decl] ∧
    (network_c_h.preamble ++ network_c_h.items).countP isFunctionDefItem = 0 ∧
    (network_c_h.preamble ++ network_c_h.items).countP isStructDefItem = 0 ∧
    (network_c_h.preamble ++ network_c_h.items).countP isOtherDeclItem = 0 := by
  exact ⟨rfl, rfl, rfl, rfl⟩

/-- Counterexample to claim C7 as stated: the header does not have
exactly 20 lines — its `#endif` sits on line 21 (the file ends without a
trailing newline, so it has 21 text lines and 20 newline characters). -/
theorem network_c_h_not_20_lines : ¬ network_c_h_lines.length = 20 := by
  decide

/-- Claim C7 (amended): the supplied repository excerpt is a single
header file of exactly 21 lines, the last of which is not
newline-terminated, so the file holds 20 newline characters. -/
theorem network_c_h_single_header_21_lines :
    repositoryFiles = ["src/network_c.h"] ∧
    network_c_h_lines.length = 21 ∧
    network_c_h_newlineCount = 20 := by
  exact ⟨rfl, rfl, rfl⟩

/-- Once the guard macro is among the defined macros, any number of
further inclusions of the header contributes no declarations. -/
theorem cppIncludeN_of_mem (h : HeaderFile) (defined : List String)
    (hmem : h.guardMacro ∈ defined) :
    ∀ n, cppIncludeN defined h n = (defined, []) := by
  intro n
  induction n with
  | zero => rfl
  | succ n ih => simp [cppIncludeN, cppInclude, if_pos hmem, ih]

/-- Claim C8: inclusion of `network_c.h` is idempotent in a translation
unit — for every `n ≥ 1`, `n` inclusions contribute the same
declarations as one, namely the two prototypes. -/
theorem include_guard_idempotent (n : Nat) (hn : 1 ≤ n) :
    (cppIncludeN [] network_c_h n).2 = (cppIncludeN [] network_c_h 1).2 ∧
    (cppIncludeN [] network_c_h n).2
      = [register_functions_C_decl, get_out_neighborhood_C_decl] := by
  obtain ⟨m, rfl⟩ : ∃ m, n = m + 1 :=
    ⟨n - 1, (Nat.succ_pred_eq_of_pos hn).symm⟩
  have hkey : ∀ k, (cppIncludeN [] network_c_h (k + 1)).2
      = [register_functions_C_decl, get_out_neighborhood_C_decl] := by
    intro k
    have hmem : network_c_h.guardMacro ∈ ["NETWORK_H_"] :=
      List.mem_cons_self _ _
    have hp : cppInclude [] network_c_h
        = (["NETWORK_H_"],
           [register_functions_C_decl, get_out_neighborhood_C_decl]) := rfl
    simp [cppIncludeN, hp, cppIncludeN_of_mem network_c_h ["NETWORK_H_"] hmem k]
  exact ⟨(hkey m).trans (hkey 0).symm, hkey m⟩

/-- Witness for C8: three inclusions contribute the same declarations as
one. -/
theorem include_guard_idempotent_witness :
    (cppIncludeN [] network_c_h 3).2 = (cppIncludeN [] network_c_h 1).2 :=
  (include_guard_idempotent 3 (by decide)).1

/-- If a sequence is valid from the registered state, it never calls
`register_functions_C` again. -/
theorem validFrom_true_count (s : List ApiCall)
    (h : validFrom true s = true) : registerCount s = 0 := by
  induction s with
  | nil => rfl
  | cons c rest ih =>
    cases c with
    | register => simp [validFrom] at h
    | getOutNeighborhood g v =>
      have h' : validFrom true rest = true := by simpa [validFrom] using h
      simpa [registerCount, List.countP_cons, isRegisterCall] using ih h'

/-- Every valid sequence registers at most once. -/
theorem validSeq_count_le_one (s : List ApiCall) (h : validSeq s = true) :
    registerCount s ≤ 1 := by
  cases s with
  | nil => simp [registerCount]
  | cons c rest =>
    cases c with
    | register =>
      have h' : validFrom true rest = true := by
        simpa [validSeq, validFrom] using h
      have h0 := validFrom_true_count rest h'
      have hc : registerCount (ApiCall.register :: rest)
          = registerCount rest + 1 := by
        simp [registerCount, List.countP_cons, isRegisterCall]
      rw [hc, h0]
    | getOutNeighborhood g v => simp [validSeq, validFrom] at h

/-- A sequence of accessor calls alone is valid from the registered
state. -/
theorem allGets_validFrom (rest : List ApiCall)
    (h : rest.all isGetCall = true) : validFrom true rest = true := by
  induction rest with
  | nil => rfl
  | cons c rs ih =>
    cases c with
    | register => simp [List.all_cons, isGetCall] at h
    | getOutNeighborhood g v =>
      have h' : rs.all isGetCall = true := by
        simpa [List.all_cons, isGetCall] using h
      simpa [validFrom] using ih h'

/-- Claim C6: `register_functions_C` is one-time setup — every valid
sequence calls it at most once, and a single leading registration makes
any sequence of accessor calls valid. -/
theorem register_functions_C_one_time :
    (∀ s : List ApiCall, validSeq s = true → registerCount s ≤ 1) ∧
    (∀ rest : List ApiCall, rest.all isGetCall = true →
      validSeq (ApiCall.register :: rest) = true) := by
  constructor
  · exact validSeq_count_le_one
  · intro rest h
    simpa [validSeq, validFrom] using allGets_validFrom rest h

/-- Witness for C6 at concrete sequences. -/
theorem register_functions_C_one_time_witness :
    registerCount [ApiCall.register, ApiCall.getOutNeighborhood gEx 1] ≤ 1 ∧
    validSeq [ApiCall.register, ApiCall.getOutNeighborhood gEx 2] = true :=
  ⟨register_functions_C_one_time.1 _ (by decide),
   register_functions_C_one_time.2 [ApiCall.getOutNeighborhood gEx 2]
     (by decide)⟩

/-- Claim C9: the vertex parameter of `get_out_neighborhood_C` is a
signed C `int`: the interface admits exactly the indices representable
as `int` — all bounded above by `INT_MAX` — and does not itself exclude
zero or negative indices. -/
theorem vertex_index_is_signed_int :
    get_out_neighborhood_C_decl.params.get? 1 = some CType.int ∧
    (∀ x : Int, representableAsCInt x → x ≤ intMax) ∧
    representableAsCInt 0 ∧ representableAsCInt (-1) := by
  exact ⟨rfl, fun x hx => hx.2, by decide, by decide⟩

/-- Witness for C9: a concrete representable index is bounded by
`INT_MAX`. -/
theorem vertex_index_is_signed_int_witness : (7 : Int) ≤ intMax :=
  vertex_index_is_signed_int.2.1 7 (by decide)

/-- Claim C10: the vertex index is passed by value, so whatever the
callee body does — even overwriting its own copy — the caller's vertex
(and graph) variables are unchanged when the call returns. -/
theorem vertex_argument_unchanged
    (body : CalleeFrame → CalleeFrame × List Int) (s : CallerState) :
    ((callByValue body s).1).v = s.v ∧ ((callByValue body s).1).g = s.g :=
  ⟨rfl, rfl⟩

/-- Witness for C10: a body that clobbers its copy of `v` still leaves
the caller's `v` intact. -/
theorem vertex_argument_unchanged_witness :
    ((callByValue clobberingBody { g := gEx, v := 1 }).1).v = 1 :=
  (vertex_argument_unchanged clobberingBody { g := gEx, v := 1 }).1

end NetworkC
